import Mathlib

/-!
Shallow embedding of the RefrigeratorSim decision core
(`refrigerator.py`, `simulator.py`).

Conventions of the embedding:
* Python floats are idealised as exact rationals (`ℚ`).
* Python `round(x, d)` rounds half to even; `pyRound` reproduces that on `ℚ`.
* The pandas dataframe is split into its consumed columns: `moers` (the MOER
  signal vector), `timeslots` (the derived `timeslotID` column) and the
  mutable `hist_avg_moer_at_time` column (`histAvgCol` in the run state).
* The binary program built by `_get_next_decision_with_lp` has all of its
  continuous variables `t[i]` pinned by equality constraints once the binary
  vector `s` is fixed (`t[0]` is fixed to the current temperature and each
  `t[i+1]` is an affine function of `t[i]` and `s[i]`), so the MILP is
  embedded as a search over the finite set of binary assignments: an
  assignment is feasible iff every pinned `t[i+1]` lies in
  `[MIN_TEMP, MAX_TEMP]`, and the solver returns an assignment of minimal
  objective among the feasible ones (the CBC tie-breaking order among equal
  optima is unspecified; the embedding picks the first optimum in its
  enumeration order, and no theorem below depends on the tie order).
  When the problem is infeasible, CBC produces no incumbent and PuLP leaves
  the variable value unset, so `s_0.value()` is Python `None`; the embedding
  returns `Option.none` for that case.  The source performs no status check
  after `model.solve`.
-/

namespace RefrigeratorSim

/-- Fixed constants of `Refrigerator` (refrigerator.py lines 3-7). -/
def MAX_TEMP : ℚ := 43

def MIN_TEMP : ℚ := 33

def WATTAGE : ℚ := 200

def WARMING_RATE : ℚ := 5 / 60

def COOLING_RATE : ℚ := -10 / 60

/-- Device state (refrigerator.py `__init__`). -/
structure Refrigerator where
  «on» : Bool
  current_temp : ℚ
  current_timestamp : ℚ
deriving DecidableEq, Repr

/-- `Refrigerator.__init__`: off, at `MIN_TEMP`, clock 0. -/
def Refrigerator.init : Refrigerator :=
  { «on» := false, current_temp := MIN_TEMP, current_timestamp := 0 }

/-- `_current_rate_temp_change`: cooling rate while on, warming rate while off. -/
def Refrigerator.currentRateTempChange (f : Refrigerator) : ℚ :=
  if f.«on» then COOLING_RATE else WARMING_RATE

/-- `expected_temp(timestamp)`: linear projection from `(current_temp,
current_timestamp)` at the current on/off rate.  Pure: it reads the state and
returns a value; in this functional embedding mutation-freedom is by
construction. -/
def Refrigerator.expected_temp (f : Refrigerator) (timestamp : ℚ) : ℚ :=
  f.current_temp + (timestamp - f.current_timestamp) * f.currentRateTempChange

def Refrigerator.turn_on (f : Refrigerator) : Refrigerator := { f with «on» := true }

def Refrigerator.turn_off (f : Refrigerator) : Refrigerator := { f with «on» := false }

/-- Python `round` on integers+half: round half to even (banker's rounding)
of a rational to an integer. -/
def halfEvenRound (y : ℚ) : ℤ :=
  let f := ⌊y⌋
  let r := y - (f : ℚ)
  if r < 1 / 2 then f
  else if 1 / 2 < r then f + 1
  else if f % 2 = 0 then f else f + 1

/-- Python `round(x, d)`: half-to-even rounding at `d` decimal places. -/
def pyRound (d : ℕ) (x : ℚ) : ℚ :=
  (halfEvenRound (x * (10 : ℚ) ^ d) : ℚ) / (10 : ℚ) ^ d

/-- The historicals dictionary: timeslotID → (running average, count).
Python-dict semantics: lookup by key, set replaces or inserts. -/
def histLookup : List (String × ℚ × ℕ) → String → Option (ℚ × ℕ)
  | [], _ => none
  | (s, a, c) :: t, slot => if s = slot then some (a, c) else histLookup t slot

def histSet : List (String × ℚ × ℕ) → String → ℚ × ℕ → List (String × ℚ × ℕ)
  | [], slot, p => [(slot, p.1, p.2)]
  | (s, a, c) :: t, slot, p =>
      if s = slot then (slot, p.1, p.2) :: t else (s, a, c) :: histSet t slot p

/-- The incremental-mean update of `_update_historical_avgs` (simulator.py
lines 202-212) restricted to the dictionary: seed `(moer, 1)` for an unseen
slot, else `((count*old_avg + moer)/(count+1), count+1)`. -/
def observeHist (h : List (String × ℚ × ℕ)) (slot : String) (moer : ℚ) :
    List (String × ℚ × ℕ) :=
  match histLookup h slot with
  | some (old_avg, count) =>
      histSet h slot (((count : ℚ) * old_avg + moer) / ((count : ℚ) + 1), count + 1)
  | none => histSet h slot (moer, 1)

/-- `num_datapoints_in_avg` (simulator.py lines 116-119): the sample count
for a slot, 0 when the slot was never observed. -/
def numDatapointsInAvg (h : List (String × ℚ × ℕ)) (slot : String) : ℕ :=
  match histLookup h slot with
  | some (_, c) => c
  | none => 0

/-- The historical extension slice (simulator.py lines 121-125):
`hist_avg_moer_at_time[start+12 : start+12+min(count,6)]` (pandas positional
slicing clamps at the end of the column, as `List.take` does). -/
def histExtension (h : List (String × ℚ × ℕ)) (slot : String)
    (histAvgCol : List ℚ) (start : ℕ) : List ℚ :=
  (histAvgCol.drop (start + 12)).take (min (numDatapointsInAvg h slot) 6)

/-- One dynamics transition of the binary program (simulator.py lines
140-142): `t[i+1] = t[i] + COOLING_RATE*5*s[i] + WARMING_RATE*5*(1-s[i])`. -/
def stepTemp (t : ℚ) (b : Bool) : ℚ :=
  t + COOLING_RATE * 5 * (if b then 1 else 0) + WARMING_RATE * 5 * (if b then 0 else 1)

/-- The pinned temperature sequence `t[0], t[1], ..., t[n]` determined by the
equality constraints from `t[0] = t0` and the binary vector `s`. -/
def tempScan (t0 : ℚ) : List Bool → List ℚ
  | [] => [t0]
  | b :: rest => t0 :: tempScan (stepTemp t0 b) rest

/-- Feasibility of a binary assignment `s` (with `n = s.length` horizon
steps): the bound constraints `MIN_TEMP ≤ t[i+1] ≤ MAX_TEMP` are imposed for
`i = 0 .. n-2` (simulator.py lines 139-144), i.e. on `t[1] .. t[n-1]`. -/
def feasB (t0 : ℚ) (s : List Bool) : Bool :=
  (((tempScan t0 s).drop 1).take (s.length - 1)).all
    (fun t => decide (MIN_TEMP ≤ t) && decide (t ≤ MAX_TEMP))

/-- Objective value `Σ s[i] * moer[i]` of a binary assignment. -/
def lpCost (moer : List ℚ) (s : List Bool) : ℚ :=
  (List.zipWith (fun m b => if b then m else 0) moer s).sum

/-- All binary assignments of length `n`. -/
def boolLists : ℕ → List (List Bool)
  | 0 => [[]]
  | n + 1 => (boolLists n).flatMap (fun s => [false :: s, true :: s])

/-- The feasible assignments of the binary program with start temperature
`t0` and horizon length `n`. -/
def feasibleAssignments (t0 : ℚ) (n : ℕ) : List (List Bool) :=
  (boolLists n).filter (feasB t0)

/-- An optimal feasible assignment (first optimum in enumeration order), or
`none` when the program is infeasible. -/
def lpOptimum (t0 : ℚ) (moer : List ℚ) : Option (List Bool) :=
  (feasibleAssignments t0 moer.length).foldl
    (fun best s =>
      match best with
      | none => some s
      | some b => if lpCost moer s < lpCost moer b then some s else best)
    none

/-- `model.variablesDict()['s_0'].value()` after the solve (simulator.py
lines 147-149): the value of the first decision variable of an optimal
solution, or Python `None` (here `Option.none`) when the solver found no
feasible assignment.  No status check is performed. -/
def lpFirstValue (t0 : ℚ) (moer : List ℚ) : Option ℚ :=
  match lpOptimum t0 moer with
  | none => none
  | some [] => none
  | some (b :: _) => some (if b then 1 else 0)

/-- The configuration of a `Simulator` plus the flags of one `run` call: the
consumed dataframe columns, the timestep count, and the three tier flags. -/
structure Config where
  use_zeroes : Bool
  use_forecast : Bool
  use_hist : Bool
  moers : List ℚ
  timeslots : List String
  num_timesteps : ℕ
deriving DecidableEq, Repr

/-- One output csv row (simulator.py lines 229-240): written with the
pre-commit temperature and the pre-advance clock, and the post-decision
on/off status. -/
structure Row where
  time : ℚ
  fridge_temp : ℚ
  fridge_on : Bool
  moer : ℚ
  lbs_co2 : ℚ
  avg_moer_at_time : ℚ
deriving DecidableEq, Repr

/-- The dynamic fields of a `Simulator` reset by `_prepare_new_simulation`,
plus the stream of output rows written so far. -/
structure SimState where
  fridge : Refrigerator
  historicals : List (String × ℚ × ℕ)
  current_time : ℚ
  total_lbs_co2 : ℚ
  histAvgCol : List ℚ
  rows : List Row
deriving DecidableEq, Repr

/-- `_prepare_new_simulation` (simulator.py lines 179-193): fresh fridge,
empty historicals, clock 0, zero total, `hist_avg_moer_at_time` column reset
to all zeroes, empty output. -/
def prepare (cfg : Config) : SimState :=
  { fridge := Refrigerator.init
    historicals := []
    current_time := 0
    total_lbs_co2 := 0
    histAvgCol := List.replicate cfg.moers.length 0
    rows := [] }

/-- `_lbs_co2_from_moer` (simulator.py lines 243-252):
`round(moer * (WATTAGE/1000000) * (5/60), 8)`. -/
def lbsCO2FromMoer (moer : ℚ) : ℚ :=
  pyRound 8 (moer * (WATTAGE * (1 / 1000000)) * (5 * (1 / 60)))

/-- `_get_next_decision_with_lp` (simulator.py lines 98-149): the raw
forecast window `moers[start : start+12]`, optionally extended by the
historical-average slice, fed to the binary program; returns the value of
`s_0`. -/
def getNextDecisionWithLp (cfg : Config) (st : SimState) (start : ℕ) : Option ℚ :=
  let window := (cfg.moers.drop start).take 12
  let moer_vector :=
    if cfg.use_hist then
      window ++ histExtension st.historicals (cfg.timeslots.getD start "") st.histAvgCol start
    else window
  lpFirstValue st.fridge.current_temp moer_vector

/-- The tiered decision of one loop iteration (simulator.py lines 48-72):
zero-signal heuristic, then forecast optimization, then naive threshold
fallback; returns the fridge with its post-decision status. -/
def decisionPhase (cfg : Config) (st : SimState) (timestep : ℕ) : Refrigerator :=
  let expected := st.fridge.expected_temp (st.current_time + 5)
  let moer := cfg.moers.getD timestep 0
  if cfg.use_zeroes && decide (moer = 0) then
    if MIN_TEMP < expected then st.fridge.turn_on else st.fridge.turn_off
  else if cfg.use_forecast then
    if getNextDecisionWithLp cfg st timestep = some 0 then st.fridge.turn_off
    else st.fridge.turn_on
  else
    if expected ≤ MIN_TEMP then st.fridge.turn_off
    else if MAX_TEMP ≤ expected then st.fridge.turn_on
    else st.fridge

/-- The historicals update of `_update_historical_avgs` (simulator.py lines
195-221): observe the current slot, then write the new average ahead to row
`timestep + 288` when that row is still within the run. -/
def updateHistoricalAvgs (cfg : Config) (historicals : List (String × ℚ × ℕ))
    (histAvgCol : List ℚ) (timestep : ℕ) :
    List (String × ℚ × ℕ) × List ℚ :=
  let slot := cfg.timeslots.getD timestep ""
  let moer := cfg.moers.getD timestep 0
  let h := observeHist historicals slot moer
  let avg := (histLookup h slot).getD (0, 0) |>.1
  let col :=
    if timestep + 288 < cfg.num_timesteps then histAvgCol.set (timestep + 288) avg
    else histAvgCol
  (h, col)

/-- One iteration of the run loop (simulator.py lines 47-83): decide, write
the output row, commit the projected temperature and advance the clock, then
update the historical averages. -/
def simStep (cfg : Config) (st : SimState) (timestep : ℕ) : SimState :=
  let fridge1 := decisionPhase cfg st timestep
  let moer := cfg.moers.getD timestep 0
  let lbs := if fridge1.«on» then lbsCO2FromMoer moer else 0
  let row : Row :=
    { time := st.current_time
      fridge_temp := pyRound 2 fridge1.current_temp
      fridge_on := fridge1.«on»
      moer := moer
      lbs_co2 := lbs
      avg_moer_at_time := st.histAvgCol.getD timestep 0 }
  let newTemp := fridge1.expected_temp (st.current_time + 5)
  let fridge2 : Refrigerator :=
    { fridge1 with
      current_temp := newTemp
      current_timestamp := st.current_time + 5 }
  let (h, col) := updateHistoricalAvgs cfg st.historicals st.histAvgCol timestep
  { fridge := fridge2
    historicals := h
    current_time := st.current_time + 5
    total_lbs_co2 := st.total_lbs_co2 + lbs
    histAvgCol := col
    rows := st.rows ++ [row] }

/-- The state after the first `n` loop iterations of a fresh run. -/
def runSteps (cfg : Config) : ℕ → SimState
  | 0 => prepare cfg
  | n + 1 => simStep cfg (runSteps cfg n) n

/-- The configuration-error message raised by `run` (simulator.py line 41). -/
def histConfigErrorMsg : String :=
  "If historical averages are being used, forecast window must be too."

/-- `run` (simulator.py lines 30-90): fail fast on the flag check, otherwise
reset all dynamic state via `_prepare_new_simulation` (discarding whatever a
previous run left behind in `_prev`) and execute every timestep. -/
def run (cfg : Config) (_prev : SimState) : Except String SimState :=
  if cfg.use_hist && !cfg.use_forecast then Except.error histConfigErrorMsg
  else Except.ok (runSteps cfg cfg.num_timesteps)

/-- Projection of a run result onto the on/off column of its output rows
(`none` when the run failed). -/
def runOnFlags (e : Except String SimState) : Option (List Bool) :=
  match e with
  | Except.ok st => some (st.rows.map Row.fridge_on)
  | Except.error _ => none

/-! ### Concrete instances used by witnesses and counterexamples -/

/-- Two steps, zero-heuristic plus forecast: the zero step drives the
temperature to `193/6 < MIN_TEMP`, making the next step's binary program
infeasible. -/
def cfgInfeasible : Config :=
  ⟨true, true, false, [0, 1, 1], ["0000", "0005", "0010"], 2⟩

/-- One step, zero-heuristic only, signal `0`, device off at `MIN_TEMP`. -/
def cfgZeroStart : Config :=
  ⟨true, false, false, [0], ["0000"], 1⟩

/-- Three steps, all tiers disabled: pure naive-threshold fallback. -/
def cfgFallback : Config :=
  ⟨false, false, false, [1, 1, 1], ["0000", "0005", "0010"], 3⟩

/-! ### Helper lemmas -/

theorem halfEvenRound_nonneg (y : ℚ) (hy : 0 ≤ y) : 0 ≤ halfEvenRound y := by
  have hf : (0 : ℤ) ≤ ⌊y⌋ := Int.floor_nonneg.mpr hy
  unfold halfEvenRound
  dsimp only
  split_ifs <;> omega

theorem pyRound_nonneg (d : ℕ) (x : ℚ) (hx : 0 ≤ x) : 0 ≤ pyRound d x := by
  unfold pyRound
  have h1 : (0 : ℚ) ≤ (halfEvenRound (x * (10 : ℚ) ^ d) : ℚ) := by
    exact_mod_cast halfEvenRound_nonneg _ (by positivity)
  positivity

theorem lbsCO2FromMoer_nonneg (m : ℚ) (hm : 0 ≤ m) : 0 ≤ lbsCO2FromMoer m := by
  unfold lbsCO2FromMoer WATTAGE
  exact pyRound_nonneg _ _ (by positivity)

theorem getD_nonneg : ∀ (l : List ℚ) (t : ℕ), (∀ v ∈ l, 0 ≤ v) → 0 ≤ l.getD t 0
  | [], t, _ => by simp [List.getD]
  | a :: l, 0, h => h a (List.mem_cons_self a l)
  | a :: l, t + 1, h => by
      have := getD_nonneg l t (fun v hv => h v (List.mem_cons_of_mem a hv))
      simpa [List.getD] using this

theorem simStep_total (cfg : Config) (st : SimState) (t : ℕ) :
    (simStep cfg st t).total_lbs_co2 =
      st.total_lbs_co2 +
        (if (decisionPhase cfg st t).«on» then lbsCO2FromMoer (cfg.moers.getD t 0)
         else 0) := rfl

theorem simStep_rows_map_lbs (cfg : Config) (st : SimState) (t : ℕ) :
    (simStep cfg st t).rows.map Row.lbs_co2 =
      st.rows.map Row.lbs_co2 ++
        [if (decisionPhase cfg st t).«on» then lbsCO2FromMoer (cfg.moers.getD t 0)
         else 0] := by
  show (st.rows ++ [_]).map Row.lbs_co2 = _
  simp [List.map_append]

theorem runSteps_total_le_succ (cfg : Config)
    (hm : ∀ v ∈ cfg.moers, 0 ≤ v) (k : ℕ) :
    (runSteps cfg k).total_lbs_co2 ≤ (runSteps cfg (k + 1)).total_lbs_co2 := by
  have h0 : 0 ≤ cfg.moers.getD k 0 := getD_nonneg _ _ hm
  have h1 : 0 ≤
      (if (decisionPhase cfg (runSteps cfg k) k).«on» then
        lbsCO2FromMoer (cfg.moers.getD k 0) else 0) := by
    split
    · exact lbsCO2FromMoer_nonneg _ h0
    · exact le_refl 0
  have h2 := simStep_total cfg (runSteps cfg k) k
  show (runSteps cfg k).total_lbs_co2 ≤ (simStep cfg (runSteps cfg k) k).total_lbs_co2
  rw [h2]
  linarith

theorem histLookup_histSet (h : List (String × ℚ × ℕ)) (slot : String) (p : ℚ × ℕ) :
    histLookup (histSet h slot p) slot = some p := by
  induction h with
  | nil => simp [histSet, histLookup]
  | cons e t ih =>
      obtain ⟨s, a, c⟩ := e
      by_cases hs : s = slot
      · simp [histSet, histLookup, hs]
      · simp [histSet, histLookup, hs, ih]

theorem observeHist_fold (slot : String) :
    ∀ (vs : List ℚ) (h : List (String × ℚ × ℕ)) (a : ℚ) (c : ℕ), 0 < c →
      histLookup h slot = some (a, c) →
      histLookup (vs.foldl (fun acc v => observeHist acc slot v) h) slot =
        some (((c : ℚ) * a + vs.sum) / ((c : ℚ) + (vs.length : ℚ)), c + vs.length)
  | [], h, a, c, hc, hl => by
      have hc' : (c : ℚ) ≠ 0 := by exact_mod_cast hc.ne'
      simp only [List.foldl_nil, List.sum_nil, List.length_nil, Nat.cast_zero,
        add_zero, Nat.add_zero]
      rw [hl]
      congr 1
      rw [Prod.mk.injEq]
      refine ⟨?_, rfl⟩
      field_simp
  | v :: t, h, a, c, hc, hl => by
      have step : histLookup (observeHist h slot v) slot =
          some (((c : ℚ) * a + v) / ((c : ℚ) + 1), c + 1) := by
        simp [observeHist, hl, histLookup_histSet]
      have IH := observeHist_fold slot t (observeHist h slot v)
        (((c : ℚ) * a + v) / ((c : ℚ) + 1)) (c + 1) (Nat.succ_pos c) step
      rw [List.foldl_cons, IH]
      have hne : (c : ℚ) + 1 ≠ 0 := by positivity
      congr 1
      rw [Prod.mk.injEq]
      constructor
      · push_cast
        field_simp
        ring
      · simp only [List.length_cons]
        omega

/-! ### Claim theorems -/

/-- Claim C1 (code bug): the source never inspects the solver status after
`model.solve` (simulator.py lines 147-149), so an infeasible horizon problem
does not abort the run.  At the concrete run `cfgInfeasible` the zero-signal
step drives the temperature to `193/6 < MIN_TEMP`; the next step's binary
program (horizon length 2) has an empty feasible set, `s_0.value()` is
`None`, and the run still commits a 0/1 decision (device on) and finishes
normally — contradicting the claim that such an instance is fatal and
produces no decision. -/
theorem claim1_infeasible_run_not_aborted :
    (runSteps cfgInfeasible 1).fridge.current_temp < MIN_TEMP ∧
      feasibleAssignments ((runSteps cfgInfeasible 1).fridge.current_temp) 2 = [] ∧
      getNextDecisionWithLp cfgInfeasible (runSteps cfgInfeasible 1) 1 = none ∧
      runOnFlags (run cfgInfeasible (prepare cfgInfeasible)) = some [true, true] := by
  have hstate : (runSteps cfgInfeasible 1).fridge.current_temp = 193 / 6 := by
    norm_num [runSteps, simStep, decisionPhase, prepare, cfgInfeasible,
      Refrigerator.expected_temp, Refrigerator.currentRateTempChange, Refrigerator.init,
      Refrigerator.turn_on, Refrigerator.turn_off, updateHistoricalAvgs, observeHist,
      histLookup, histSet, MIN_TEMP, MAX_TEMP, WARMING_RATE, COOLING_RATE]
  refine ⟨?_, ?_, ?_, ?_⟩
  · rw [hstate]
    norm_num [MIN_TEMP]
  · rw [hstate]
    norm_num [feasibleAssignments, boolLists, feasB, tempScan, stepTemp,
      MIN_TEMP, MAX_TEMP, WARMING_RATE, COOLING_RATE, List.filter]
  · norm_num [runSteps, simStep, decisionPhase, prepare, cfgInfeasible,
      getNextDecisionWithLp, lpFirstValue, lpOptimum, feasibleAssignments, boolLists,
      feasB, tempScan, stepTemp, lpCost, histExtension, numDatapointsInAvg,
      Refrigerator.expected_temp, Refrigerator.currentRateTempChange, Refrigerator.init,
      Refrigerator.turn_on, Refrigerator.turn_off, updateHistoricalAvgs, observeHist,
      histLookup, histSet, MIN_TEMP, MAX_TEMP, WARMING_RATE, COOLING_RATE, List.filter]
  · norm_num [run, runOnFlags, runSteps, simStep, decisionPhase, prepare, cfgInfeasible,
      getNextDecisionWithLp, lpFirstValue, lpOptimum, feasibleAssignments, boolLists,
      feasB, tempScan, stepTemp, lpCost, histExtension, numDatapointsInAvg,
      Refrigerator.expected_temp, Refrigerator.currentRateTempChange, Refrigerator.init,
      Refrigerator.turn_on, Refrigerator.turn_off, updateHistoricalAvgs, observeHist,
      histLookup, histSet, MIN_TEMP, MAX_TEMP, WARMING_RATE, COOLING_RATE, List.filter]
    rw [if_neg (show ¬ (none : Option ℚ) = some 0 from fun h => Option.noConfusion h)]

/-- Claim C2, counterexample: at the initial state (device off, temperature
`MIN_TEMP`) with signal value 0 and the zero-heuristic enabled, turning the
device on pushes the one-step projection below `MIN_TEMP`, so the claim as
stated demands "off"; the code turns the device on, because line 54 tests
the projection under the *current* (off) status. -/
theorem claim2_counterexample :
    Refrigerator.expected_temp ((prepare cfgZeroStart).fridge.turn_on)
        ((prepare cfgZeroStart).current_time + 5) < MIN_TEMP ∧
      cfgZeroStart.use_zeroes = true ∧
      cfgZeroStart.moers.getD 0 0 = 0 ∧
      runOnFlags (run cfgZeroStart (prepare cfgZeroStart)) = some [true] := by
  refine ⟨?_, rfl, rfl, ?_⟩
  · norm_num [prepare, cfgZeroStart, Refrigerator.init, Refrigerator.turn_on,
      Refrigerator.expected_temp, Refrigerator.currentRateTempChange,
      MIN_TEMP, COOLING_RATE]
  · norm_num [run, runOnFlags, runSteps, simStep, decisionPhase, prepare, cfgZeroStart,
      Refrigerator.expected_temp, Refrigerator.currentRateTempChange, Refrigerator.init,
      Refrigerator.turn_on, Refrigerator.turn_off, updateHistoricalAvgs, observeHist,
      histLookup, histSet, MIN_TEMP, MAX_TEMP, WARMING_RATE, COOLING_RATE]

/-- Claim C2, amended: at a zero-signal step with the zero-heuristic
enabled, the controller forces the device on exactly when the one-step
projection under the *current* status strictly exceeds `MIN_TEMP`, and
forces it off otherwise; no other tier runs (the result is unchanged if the
forecast tiers are disabled). -/
theorem claim2_zero_tier (cfg : Config) (st : SimState) (t : ℕ)
    (hz : cfg.use_zeroes = true) (hm : cfg.moers.getD t 0 = 0) :
    decisionPhase cfg st t =
      (if MIN_TEMP < st.fridge.expected_temp (st.current_time + 5) then
        st.fridge.turn_on
       else st.fridge.turn_off) ∧
      decisionPhase cfg st t =
        decisionPhase { cfg with use_forecast := false, use_hist := false } st t := by
  constructor <;>
  · simp only [decisionPhase, hz, hm]
    simp

/-- Claim C2, witness for the amended theorem at `cfgZeroStart`, step 0. -/
theorem claim2_witness :
    cfgZeroStart.use_zeroes = true ∧ cfgZeroStart.moers.getD 0 0 = 0 ∧
      decisionPhase cfgZeroStart (prepare cfgZeroStart) 0 =
        (if MIN_TEMP <
            (prepare cfgZeroStart).fridge.expected_temp
              ((prepare cfgZeroStart).current_time + 5) then
          (prepare cfgZeroStart).fridge.turn_on
         else (prepare cfgZeroStart).fridge.turn_off) :=
  ⟨rfl, rfl, (claim2_zero_tier cfgZeroStart (prepare cfgZeroStart) 0 rfl rfl).1⟩

/-- Claim C3: with a nonnegative emission signal, the cumulative emissions
total starts at 0 (`_prepare_new_simulation` resets it) and is monotonically
non-decreasing across the steps of a run. -/
theorem claim3_total_monotone (cfg : Config) (hm : ∀ v ∈ cfg.moers, 0 ≤ v) :
    (runSteps cfg 0).total_lbs_co2 = 0 ∧
      ∀ i j : ℕ, i ≤ j →
        (runSteps cfg i).total_lbs_co2 ≤ (runSteps cfg j).total_lbs_co2 := by
  refine ⟨rfl, ?_⟩
  intro i j hij
  exact monotone_nat_of_le_succ (runSteps_total_le_succ cfg hm) hij

/-- Claim C3, witness at the concrete run `cfgFallback`. -/
theorem claim3_witness :
    (∀ v ∈ cfgFallback.moers, 0 ≤ v) ∧
      (runSteps cfgFallback 0).total_lbs_co2 = 0 ∧
      (runSteps cfgFallback 1).total_lbs_co2 ≤ (runSteps cfgFallback 3).total_lbs_co2 := by
  have hm : ∀ v ∈ cfgFallback.moers, 0 ≤ v := by
    norm_num [cfgFallback, List.forall_mem_cons]
  exact ⟨hm, (claim3_total_monotone cfgFallback hm).1,
    (claim3_total_monotone cfgFallback hm).2 1 3 (by omega)⟩

/-- Claim C4: `expected_temp` is linear in the query time — the difference
of projections equals the elapsed time times the status-dependent rate
(COOLING_RATE when on, WARMING_RATE when off).  In this functional
embedding `expected_temp` returns only a value, so it cannot mutate the
device state; purity holds by construction. -/
theorem claim4_project_linear (f : Refrigerator) (t1 t2 : ℚ) :
    f.expected_temp t2 - f.expected_temp t1 = (t2 - t1) * f.currentRateTempChange ∧
      f.currentRateTempChange = (if f.«on» then COOLING_RATE else WARMING_RATE) := by
  constructor
  · unfold Refrigerator.expected_temp
    ring
  · rfl

/-- Claim C5: feeding values `v1..vn` for one slot to the incremental-mean
update, starting from an empty table, leaves the slot's entry at exactly
(arithmetic mean, n). -/
theorem claim5_incremental_mean (slot : String) (vs : List ℚ) (hne : vs ≠ []) :
    histLookup (vs.foldl (fun acc v => observeHist acc slot v) []) slot =
      some (vs.sum / (vs.length : ℚ), vs.length) := by
  obtain ⟨v, t, rfl⟩ := List.exists_cons_of_ne_nil hne
  rw [List.foldl_cons]
  have h1 : histLookup (observeHist [] slot v) slot = some (v, 1) := by
    simp [observeHist, histLookup, histSet]
  have h2 := observeHist_fold slot t (observeHist [] slot v) v 1 one_pos h1
  rw [h2]
  congr 1
  rw [Prod.mk.injEq]
  constructor
  · have hd : (1 : ℚ) + (t.length : ℚ) ≠ 0 := by positivity
    have hd2 : ((t.length : ℚ) + 1) ≠ 0 := by positivity
    rw [List.sum_cons, List.length_cons]
    push_cast
    rw [div_eq_div_iff hd hd2]
    ring
  · simp only [List.length_cons]
    omega

/-- Claim C5, witness: observing 3, 5, 7 yields mean 5 with count 3. -/
theorem claim5_witness :
    ([3, 5, 7] : List ℚ) ≠ [] ∧
      histLookup
          (([3, 5, 7] : List ℚ).foldl (fun acc v => observeHist acc "1200" v) [])
          "1200" =
        some (5, 3) := by
  have h := claim5_incremental_mean "1200" [3, 5, 7] (by simp)
  refine ⟨by simp, ?_⟩
  rw [h]
  norm_num

/-- Claim C6: the historical extension appended to the raw forecast window
never exceeds 6 steps; when the hist-average column reaches far enough past
`start + 12`, its length is exactly `min(sample_count, 6)`, where the sample
count of a never-observed slot is 0. -/
theorem claim6_extension_bound (h : List (String × ℚ × ℕ)) (slot : String)
    (histAvgCol : List ℚ) (start : ℕ) :
    (histExtension h slot histAvgCol start).length ≤ 6 ∧
      (start + 12 + 6 ≤ histAvgCol.length →
        (histExtension h slot histAvgCol start).length =
          min (numDatapointsInAvg h slot) 6) ∧
      (histLookup h slot = none → numDatapointsInAvg h slot = 0) := by
  refine ⟨?_, ?_, ?_⟩
  · simp only [histExtension, List.length_take, List.length_drop]
    omega
  · intro hlen
    simp only [histExtension, List.length_take, List.length_drop]
    omega
  · intro hnone
    simp [numDatapointsInAvg, hnone]

/-- Claim C6, witness: a slot with 9 samples and a long enough column gives
an extension of length `min 9 6 = 6`; an empty table gives count 0. -/
theorem claim6_witness :
    (histExtension [("0800", 10, 9)] "0800" (List.replicate 20 0) 0).length =
        min (numDatapointsInAvg [("0800", 10, 9)] "0800") 6 ∧
      numDatapointsInAvg ([] : List (String × ℚ × ℕ)) "0800" = 0 := by
  have h1 := claim6_extension_bound [("0800", 10, 9)] "0800" (List.replicate 20 0) 0
  have h2 := claim6_extension_bound ([] : List (String × ℚ × ℕ)) "0800" [] 0
  exact ⟨h1.2.1 (by norm_num [List.length_replicate]), h2.2.2 rfl⟩

/-- Claim C7: requesting historical extension without the forecast window is
rejected by `run` before any step executes (the error value carries no
state); every other flag combination proceeds to a normal full run, and no
other error exit exists in `run`. -/
theorem claim7_config_error (cfg : Config) (prev : SimState) :
    (cfg.use_hist = true → cfg.use_forecast = false →
      run cfg prev = Except.error histConfigErrorMsg) ∧
      ((cfg.use_hist = true → cfg.use_forecast = true) →
        run cfg prev = Except.ok (runSteps cfg cfg.num_timesteps)) := by
  constructor
  · intro hh hf
    simp [run, hh, hf]
  · intro himp
    by_cases hh : cfg.use_hist
    · simp [run, hh, himp hh]
    · have hh' : cfg.use_hist = false := by simpa using hh
      simp [run, hh']

/-- Claim C7, witness: the offending flag combination errors; a legal one
completes. -/
theorem claim7_witness :
    run ⟨false, false, true, [], [], 0⟩ (prepare cfgFallback) =
        Except.error histConfigErrorMsg ∧
      run cfgFallback (prepare cfgFallback) =
        Except.ok (runSteps cfgFallback cfgFallback.num_timesteps) :=
  ⟨(claim7_config_error ⟨false, false, true, [], [], 0⟩ (prepare cfgFallback)).1 rfl rfl,
    (claim7_config_error cfgFallback (prepare cfgFallback)).2 (by decide)⟩

/-- Claim C8: when neither the zero-signal tier nor the forecast tier makes
the decision, the naive threshold fallback applies (off at `≤ MIN_TEMP`, on
at `≥ MAX_TEMP`, otherwise unchanged); concretely, with all tiers disabled
and signal `[1,1,1]`, the device starting off at 33 stays off for all three
steps and ends at `33 + 3*5*(5/60)`. -/
theorem claim8_threshold_fallback (cfg : Config) (st : SimState) (t : ℕ)
    (hf : cfg.use_forecast = false)
    (hz : cfg.use_zeroes = false ∨ cfg.moers.getD t 0 ≠ 0) :
    decisionPhase cfg st t =
      (if st.fridge.expected_temp (st.current_time + 5) ≤ MIN_TEMP then
        st.fridge.turn_off
       else if MAX_TEMP ≤ st.fridge.expected_temp (st.current_time + 5) then
        st.fridge.turn_on
       else st.fridge) ∧
      runOnFlags (run cfgFallback (prepare cfgFallback)) =
        some [false, false, false] ∧
      (runSteps cfgFallback 3).fridge.current_temp = 33 + 3 * 5 * (5 / 60) := by
  refine ⟨?_, ?_, ?_⟩
  · have hcond : (cfg.use_zeroes && decide (cfg.moers.getD t 0 = 0)) = false := by
      rcases hz with h | h
      · simp [h]
      · rw [decide_eq_false h, Bool.and_false]
    simp only [decisionPhase, hcond, hf]
    simp
  · norm_num [run, runOnFlags, runSteps, simStep, decisionPhase, prepare, cfgFallback,
      Refrigerator.expected_temp, Refrigerator.currentRateTempChange, Refrigerator.init,
      Refrigerator.turn_on, Refrigerator.turn_off, updateHistoricalAvgs, observeHist,
      histLookup, histSet, MIN_TEMP, MAX_TEMP, WARMING_RATE, COOLING_RATE]
  · norm_num [runSteps, simStep, decisionPhase, prepare, cfgFallback,
      Refrigerator.expected_temp, Refrigerator.currentRateTempChange, Refrigerator.init,
      Refrigerator.turn_on, Refrigerator.turn_off, updateHistoricalAvgs, observeHist,
      histLookup, histSet, MIN_TEMP, MAX_TEMP, WARMING_RATE, COOLING_RATE]

/-- Claim C8, witness for the fallback tier at `cfgFallback`, step 0. -/
theorem claim8_witness :
    decisionPhase cfgFallback (prepare cfgFallback) 0 =
      (if (prepare cfgFallback).fridge.expected_temp
            ((prepare cfgFallback).current_time + 5) ≤ MIN_TEMP then
        (prepare cfgFallback).fridge.turn_off
       else if MAX_TEMP ≤
            (prepare cfgFallback).fridge.expected_temp
              ((prepare cfgFallback).current_time + 5) then
        (prepare cfgFallback).fridge.turn_on
       else (prepare cfgFallback).fridge) :=
  (claim8_threshold_fallback cfgFallback (prepare cfgFallback) 0 rfl
    (Or.inr (by norm_num [cfgFallback]))).1

/-- Claim C9: each step's emissions contribution is 0 when the device is
off and `round(signal * 200/1000000 * 5/60, 8)` when on; that same value is
both written to the step's output row and added to the cumulative total. -/
theorem claim9_emissions_per_step (cfg : Config) (st : SimState) (t : ℕ) :
    (simStep cfg st t).total_lbs_co2 =
      st.total_lbs_co2 +
        (if (decisionPhase cfg st t).«on» then lbsCO2FromMoer (cfg.moers.getD t 0)
         else 0) ∧
      (simStep cfg st t).rows.map Row.lbs_co2 =
        st.rows.map Row.lbs_co2 ++
          [if (decisionPhase cfg st t).«on» then lbsCO2FromMoer (cfg.moers.getD t 0)
           else 0] ∧
      ∀ m : ℚ, lbsCO2FromMoer m = pyRound 8 (m * (200 / 1000000) * (5 / 60)) := by
  refine ⟨simStep_total cfg st t, simStep_rows_map_lbs cfg st t, ?_⟩
  intro m
  unfold lbsCO2FromMoer WATTAGE
  congr 1
  ring

/-- Claim C10: a run's result is independent of whatever dynamic state a
previous run left behind, because `_prepare_new_simulation` resets the
device (off, temperature `MIN_TEMP = 33`, clock 0), the historicals table
(empty) and the cumulative total (0) before the first step. -/
theorem claim10_run_reset (cfg : Config) (d1 d2 : SimState) :
    run cfg d1 = run cfg d2 ∧
      runSteps cfg 0 = prepare cfg ∧
      (prepare cfg).fridge.«on» = false ∧
      (prepare cfg).fridge.current_temp = MIN_TEMP ∧
      MIN_TEMP = 33 ∧
      (prepare cfg).fridge.current_timestamp = 0 ∧
      (prepare cfg).historicals = [] ∧
      (prepare cfg).total_lbs_co2 = 0 ∧
      (prepare cfg).current_time = 0 :=
  ⟨rfl, rfl, rfl, rfl, rfl, rfl, rfl, rfl, rfl⟩

end RefrigeratorSim
